import Mathlib

/-!
Verification development for the `d1` desktop virtual-pet application.

The Python sources are embedded shallowly:
* `PetAgent.respond` / `PetAgent.reset` (src/d1/agents/pet_agent.py) become pure
  state-passing functions over an explicit `AgentState`;
* `LocalPetChatModel._craft_reply` / `_generate` (src/d1/models/local.py) become
  total functions, with `random.choice` modelled by an explicit pick index;
* `AgentWorker.run` (src/d1/ui/worker.py) becomes a function from the outcome of
  the agent call to the list of emitted Qt signals;
* `DuckOverlayWindow._request_duck_reply` / `_cleanup_worker` and
  `_animate_step` (src/d1/ui/duck_overlay.py) become transition functions on
  small record states.
Python exceptions are modelled by an explicit error value threaded through
`Except` / product types.
-/

/-- Python list-of-chars test: `listIsPrefixOf needle hay` holds when `needle`
is an initial segment of `hay` (helper for Python's substring operator `in`). -/
def listIsPrefixOf : List Char → List Char → Bool
  | [], _ => true
  | _ :: _, [] => false
  | a :: as, b :: bs => a == b && listIsPrefixOf as bs

/-- Contiguous-sublist test on char lists: `needle` occurs somewhere in `hay`.
Together with `hasSubStr` this embeds Python's `needle in hay` on `str`. -/
def listHasSub (needle : List Char) : List Char → Bool
  | [] => needle.isEmpty
  | b :: bs => listIsPrefixOf needle (b :: bs) || listHasSub needle bs

/-- Python's substring containment `needle in hay` for strings. -/
def hasSubStr (needle hay : String) : Bool :=
  listHasSub needle.data hay.data

/-- Python's `str.casefold`, modelled as per-character lowercasing (faithful on
the ASCII keyword alphabet the program matches against). -/
def lowerStr (s : String) : String :=
  ⟨s.data.map Char.toLower⟩

/-- Python's slice `s[:n]`: the first `n` characters of `s`. -/
def strTake (n : Nat) (s : String) : String :=
  ⟨s.data.take n⟩

/-- Python's `str.strip()`: remove whitespace from both ends of the string. -/
def strTrim (s : String) : String :=
  ⟨((s.data.dropWhile Char.isWhitespace).reverse.dropWhile Char.isWhitespace).reverse⟩

/-- Message role in the conversation history (`add_user_message` appends a
`user` turn, `add_ai_message` an `assistant` turn). -/
inductive Role where
  | user
  | assistant
deriving DecidableEq, Repr

/-- One turn of the conversation history kept in `ChatMessageHistory`. -/
structure Message where
  role : Role
  text : String
deriving DecidableEq, Repr

/-- A Python exception as observed by `PetAgent.respond`: whether it is an
`AttributeError`, and its `str(exc)` message. -/
structure PyError where
  isAttributeError : Bool
  msg : String
deriving DecidableEq, Repr

/-- Behaviour of one chain invocation (`self._chain.invoke`): from the current
message history (the `chat_history` the chain reads at invoke time) and the
user input, either the reply string (the `content`/`str` normalisation of the
chain's output folded in) or the raised exception. -/
abbrev Responder := List Message → String → Except PyError String

/-- The mutable state of a `PetAgent`: its `_chat_history` messages, and
whether `_switch_to_local_fallback` has reconfigured `self._chain`/`self.llm`
to the `LocalPetChatModel`. -/
structure AgentState where
  history : List Message
  usingLocal : Bool
deriving DecidableEq, Repr

/-- `PetAgent._needs_local_fallback`:
`isinstance(exc, AttributeError) and "model_dump" in str(exc)`. -/
def needsLocalFallback (e : PyError) : Bool :=
  e.isAttributeError && hasSubStr "model_dump" e.msg

/-- `PetAgent.respond`, state-passing. `primary` is the behaviour of the chain
as initially configured, `localModel` the behaviour after
`_switch_to_local_fallback` installs `LocalPetChatModel()`. The user message is
appended first; the chain reads `self._chat_history.messages` at invoke time,
so both invocations see the just-appended user message. On success the raw
reply is appended as the assistant message and `reply.strip()` is returned; a
fallback-shaped failure switches the chain and retries once; any other failure
(or a failure of the retried call) propagates with only the user message
recorded. -/
def respond (primary localModel : Responder) (s : AgentState) (userInput : String) :
    AgentState × Except PyError String :=
  let hist1 := s.history ++ [Message.mk Role.user userInput]
  let invokeResult := if s.usingLocal then localModel hist1 userInput else primary hist1 userInput
  match invokeResult with
  | Except.ok reply =>
      (AgentState.mk (hist1 ++ [Message.mk Role.assistant reply]) s.usingLocal,
       Except.ok (strTrim reply))
  | Except.error exc =>
      if needsLocalFallback exc then
        match localModel hist1 userInput with
        | Except.ok reply =>
            (AgentState.mk (hist1 ++ [Message.mk Role.assistant reply]) true,
             Except.ok (strTrim reply))
        | Except.error exc2 => (AgentState.mk hist1 true, Except.error exc2)
      else
        (AgentState.mk hist1 s.usingLocal, Except.error exc)

/-- `PetAgent.reset`: `self._chat_history.clear()` (the returned `self` is the
new state). -/
def reset (s : AgentState) : AgentState :=
  AgentState.mk [] s.usingLocal

/-- The three acknowledgment templates of `LocalPetChatModel._craft_reply`,
with `random.choice` modelled by an explicit index modulo 3 and `str.format`
by concatenation at the cue slot. -/
def pickTemplate (pick : Nat) (cue : String) : String :=
  match pick % 3 with
  | 0 => "Pixel paws at the screen: " ++ cue ++ " *chirp*"
  | 1 => "Pixel tilts head: " ++ cue ++ " nya~"
  | _ => "Pixel fluffs tail: " ++ cue ++ " purrr!"

/-- `LocalPetChatModel._craft_reply`: keyword-rule reply for the latest user
text. `pick` is the index `random.choice` draws in the default branch. -/
def craftReply (userText : String) (pick : Nat) : String :=
  if userText = "" then
    "Pixel is here and ready to play! Meow!"
  else
    let lowered := lowerStr userText
    if hasSubStr "joke" lowered then
      "Pixel wiggles whiskers: Why did the cat sit on the computer? To keep an eye on the mouse! :3"
    else if hasSubStr "tired" lowered || hasSubStr "break" lowered then
      "Nap buddies? Pixel suggests a big stretch and a sip of water before continuing. *purr*"
    else if hasSubStr "hello" lowered || hasSubStr "hi" lowered then
      "Hii! Pixel does a flip in the air and waves paws excitedly!"
    else
      pickTemplate pick
        ("I heard you mention '" ++ strTake 40 userText ++ "'. Let's keep going together!")

/-- The `next((m.content.strip() for m in reversed(messages) if isinstance(m,
HumanMessage)), "")` selection of `LocalPetChatModel._generate`, written over
the reversed list. -/
def lastUserText : List Message → String
  | [] => ""
  | m :: rest => if m.role = Role.user then strTrim m.text else lastUserText rest

/-- `LocalPetChatModel._generate`: craft a reply from the stripped text of the
last human message (empty default when there is none). -/
def generateLocal (messages : List Message) (pick : Nat) : String :=
  craftReply (lastUserText messages.reverse) pick

/-- A Qt signal emitted by `AgentWorker.run`. -/
inductive WorkerSignal where
  | responded (reply : String)
  | errored (details : String)
  | finished
deriving DecidableEq, Repr

/-- `traceback.format_exc` as observed through the error signal: the
stringified failure detail of the caught exception. -/
def formatExc (e : PyError) : String :=
  e.msg

/-- `AgentWorker.run`: try the agent call; emit `responded` with the reply on
success, `errored` with the stringified traceback on failure, and `finished`
in the `finally` block on both paths. `outcome` is what
`self._agent.respond(self._user_text)` did; `fmt` renders the traceback. -/
def runWorker (fmt : PyError → String) (outcome : Except PyError String) : List WorkerSignal :=
  match outcome with
  | Except.ok reply => [WorkerSignal.responded reply, WorkerSignal.finished]
  | Except.error e => [WorkerSignal.errored (fmt e), WorkerSignal.finished]

/-- Whether a signal is the `responded` signal. -/
def isRespondedSig : WorkerSignal → Bool
  | WorkerSignal.responded _ => true
  | _ => false

/-- Whether a signal is the `errored` signal. -/
def isErroredSig : WorkerSignal → Bool
  | WorkerSignal.errored _ => true
  | _ => false

/-- `DuckOverlayWindow._action_prompts` plus the `.get(action, ...["click"])`
default of `_build_action_prompt`. -/
def buildActionPrompt (action : String) : String :=
  if action = "chat" then
    "The user opens a context menu and selects 'Chat'. Greet them warmly as Nova the Super Duck, summarize how you can help with life, code, or creativity, and politely ask what they'd like to do next."
  else if action = "joke" then
    "The user selects 'Joke' from a context menu. Reply as Nova the Super Duck with a single playful, cosmic-themed joke or pun (keep it under three sentences) and add a cheerful emoji."
  else if action = "touch" then
    "The user gently boops or pats Nova by choosing 'Touch'. React with delight, describe a cute physical animation, and invite them to keep interacting."
  else
    "A user taps you on their desktop seeking help. Introduce yourself as Nova the Super Duck of the Multiverse, offer immediate assistance on anything, and invite them to ask for specifics."

/-- `DuckOverlayWindow._action_previews` plus the `.get(action, ...["click"])`
default used in `_request_duck_reply` (the click preview's trailing characters
are exactly the bytes found in the source file). -/
def actionPreview (action : String) : String :=
  if action = "chat" then "Nova leans in to chat..."
  else if action = "joke" then "Nova riffling through joke scrolls..."
  else if action = "touch" then "Nova fluffs feathers from the boop!"
  else "Nova is tuning in... ðŸª"

/-- The dispatch-relevant state of a `DuckOverlayWindow`: the `_is_generating`
flag, the chat-bubble widget's text/visibility and whether its auto-hide timer
is armed, and the log of prompts handed to `_start_worker` (one entry per
worker ever started). -/
structure OverlayState where
  isGenerating : Bool
  bubbleText : String
  bubbleVisible : Bool
  bubbleAutoHide : Bool
  startedWorkers : List String
deriving DecidableEq, Repr

/-- `DuckOverlayWindow._request_duck_reply`: a no-op while `_is_generating`;
otherwise set the flag, show the action's preview in the bubble with auto-hide
disabled (`_show_chatbox(auto_hide=False)` stops the timer), and start a
worker on the action's prompt. -/
def requestDuckReply (action : String) (s : OverlayState) : OverlayState :=
  if s.isGenerating then s
  else
    { s with
      isGenerating := true
      bubbleText := actionPreview action
      bubbleVisible := true
      bubbleAutoHide := false
      startedWorkers := s.startedWorkers ++ [buildActionPrompt action] }

/-- `DuckOverlayWindow._cleanup_worker`: after releasing the thread and worker
(resource management with no observable dispatch state), clear
`_is_generating`. -/
def cleanupWorker (s : OverlayState) : OverlayState :=
  { s with isGenerating := false }

/-- The walking sprite's state: window x position, walk direction (`1` right,
`-1` left) and the per-tick pixel delta `_speed_px`. -/
structure SpriteState where
  x : Int
  direction : Int
  speed : Int
deriving DecidableEq, Repr

/-- `DuckOverlayWindow._animate_step` for one timer tick: advance by
`direction * speed`; clamp at `minX`/`maxX` (the available-geometry edges
adjusted for the sprite width) and turn right/left there. The `_apply_movie`
call only swaps the GIF and is not part of the motion state. -/
def animateStep (minX maxX : Int) (s : SpriteState) : SpriteState :=
  let newX := s.x + s.direction * s.speed
  if newX ≤ minX then SpriteState.mk minX 1 s.speed
  else if newX ≥ maxX then SpriteState.mk maxX (-1) s.speed
  else SpriteState.mk newX s.direction s.speed

/-- `n` consecutive animation ticks. -/
def animateIter (minX maxX : Int) : Nat → SpriteState → SpriteState
  | 0, s => s
  | n + 1, s => animateIter minX maxX n (animateStep minX maxX s)

/-! ## Helper lemmas -/

/-- Appending on the right preserves non-emptiness of a string. -/
lemma length_append_pos_left (s t : String) (h : 0 < s.length) : 0 < (s ++ t).length := by
  rw [String.length_append]
  omega

/-- Every acknowledgment template produces a non-empty string. -/
lemma pickTemplate_length_pos (pick : Nat) (cue : String) : 0 < (pickTemplate pick cue).length := by
  unfold pickTemplate
  rcases h : pick % 3 with _ | _ | m <;>
    exact length_append_pos_left _ _ (length_append_pos_left _ _ (by decide))

/-- `_craft_reply` always produces a string of positive length. -/
lemma craftReply_length_pos (s : String) (pick : Nat) : 0 < (craftReply s pick).length := by
  simp only [craftReply]
  split_ifs with h0 h1 h2 h3
  · decide
  · decide
  · decide
  · decide
  · exact pickTemplate_length_pos pick _

/-- `_craft_reply` never returns the empty string. -/
lemma craftReply_ne_empty (s : String) (pick : Nat) : craftReply s pick ≠ "" := by
  intro h
  have hpos : (0 : Nat) < "".length := h ▸ craftReply_length_pos s pick
  exact absurd hpos (by decide)

/-! ## Claim theorems -/

/-- Claim C6: the local responder is total — for every input string (empty
included) and every template draw, `_craft_reply` returns a non-empty string,
and so does `_generate` for every message list; being total computable Lean
functions, they can neither raise nor perform I/O. -/
theorem c6_local_responder_total :
    (∀ (userText : String) (pick : Nat), craftReply userText pick ≠ "") ∧
    (∀ (messages : List Message) (pick : Nat), generateLocal messages pick ≠ "") :=
  ⟨fun s pick => craftReply_ne_empty s pick,
   fun msgs pick => craftReply_ne_empty (lastUserText msgs.reverse) pick⟩

/-- Claim C7: `reset` empties the history regardless of the prior state, is
idempotent, and leaves the responder/model state (the fallback configuration)
untouched. -/
theorem c7_reset_idempotent (s : AgentState) :
    (reset s).history = [] ∧ reset (reset s) = reset s ∧ (reset s).usingLocal = s.usingLocal :=
  ⟨rfl, rfl, rfl⟩

/-- Claim C9: on `"tell me a joke"` the local responder takes the joke branch,
whose reply contains the substring `"mouse"`, for every template draw; on the
empty string it returns the fixed greeting default. -/
theorem c9_joke_and_empty_scenarios (pick : Nat) :
    hasSubStr "mouse" (craftReply "tell me a joke" pick) = true ∧
    craftReply "" pick = "Pixel is here and ready to play! Meow!" :=
  ⟨rfl, rfl⟩

/-- Claim C10: the keyword rules act by substring match on the casefolded
input in the fixed priority order joke, then tired/break, then hello/hi, so
the highest-priority matching rule decides the reply; in particular `"this"`
contains `"hi"` and takes the greeting branch. -/
theorem c10_keyword_priority (s : String) (pick : Nat) :
    (hasSubStr "joke" (lowerStr s) = true →
      craftReply s pick =
        "Pixel wiggles whiskers: Why did the cat sit on the computer? To keep an eye on the mouse! :3") ∧
    (hasSubStr "joke" (lowerStr s) = false →
      (hasSubStr "tired" (lowerStr s) || hasSubStr "break" (lowerStr s)) = true →
      craftReply s pick =
        "Nap buddies? Pixel suggests a big stretch and a sip of water before continuing. *purr*") ∧
    (hasSubStr "joke" (lowerStr s) = false →
      (hasSubStr "tired" (lowerStr s) || hasSubStr "break" (lowerStr s)) = false →
      (hasSubStr "hello" (lowerStr s) || hasSubStr "hi" (lowerStr s)) = true →
      craftReply s pick = "Hii! Pixel does a flip in the air and waves paws excitedly!") ∧
    craftReply "this" pick = "Hii! Pixel does a flip in the air and waves paws excitedly!" := by
  refine ⟨?_, ?_, ?_, rfl⟩
  · intro hj
    rcases eq_or_ne s "" with hs | hs
    · subst hs; exact absurd hj (by decide)
    · simp [craftReply, hs, hj]
  · intro hj ht
    rcases eq_or_ne s "" with hs | hs
    · subst hs; exact absurd ht (by decide)
    · simp [craftReply, hs, hj, ht]
  · intro hj ht hh
    rcases eq_or_ne s "" with hs | hs
    · subst hs; exact absurd hh (by decide)
    · simp [craftReply, hs, hj, ht, hh]

/-- Claim C10 witness: the theorem applied to the input `"joke"`. -/
theorem c10_witness :
    hasSubStr "joke" (lowerStr "joke") = true ∧
    craftReply "joke" 0 =
      "Pixel wiggles whiskers: Why did the cat sit on the computer? To keep an eye on the mouse! :3" :=
  ⟨by decide, (c10_keyword_priority "joke" 0).1 (by decide)⟩

/-- Claim C4: one run of the background worker delivers exactly one of the
reply signal (with the agent's reply) or the error signal (with the rendered
failure detail) — never both, never neither — and the completion signal comes
last on both paths. -/
theorem c4_worker_signal_discipline (fmt : PyError → String) (outcome : Except PyError String) :
    (∀ r, outcome = Except.ok r →
      runWorker fmt outcome = [WorkerSignal.responded r, WorkerSignal.finished]) ∧
    (∀ e, outcome = Except.error e →
      runWorker fmt outcome = [WorkerSignal.errored (fmt e), WorkerSignal.finished]) ∧
    (runWorker fmt outcome).countP isRespondedSig + (runWorker fmt outcome).countP isErroredSig
      = 1 ∧
    (runWorker fmt outcome).getLast? = some WorkerSignal.finished := by
  cases outcome with
  | ok r =>
      refine ⟨?_, ?_, rfl, rfl⟩
      · intro r' hr; cases hr; rfl
      · intro e he; cases he
  | error e =>
      refine ⟨?_, ?_, rfl, rfl⟩
      · intro r hr; cases hr
      · intro e' he; cases he; rfl

/-- Claim C4 witness: the theorem applied to a successful outcome. -/
theorem c4_witness :
    runWorker formatExc (Except.ok "quack") =
      [WorkerSignal.responded "quack", WorkerSignal.finished] :=
  (c4_worker_signal_discipline formatExc (Except.ok "quack")).1 "quack" rfl

/-- Case analysis of `respond`: every call either succeeds having appended the
user message and one assistant message (returning the trimmed raw reply), or
fails having appended only the user message. -/
lemma respond_shape (primary localModel : Responder) (s : AgentState) (u : String) :
    (∃ reply b, respond primary localModel s u =
      (AgentState.mk (s.history ++ [Message.mk Role.user u, Message.mk Role.assistant reply]) b,
       Except.ok (strTrim reply))) ∨
    (∃ e b, respond primary localModel s u =
      (AgentState.mk (s.history ++ [Message.mk Role.user u]) b, Except.error e)) := by
  simp only [respond]
  cases hE : (if s.usingLocal then localModel (s.history ++ [Message.mk Role.user u]) u
      else primary (s.history ++ [Message.mk Role.user u]) u) with
  | ok reply =>
      exact Or.inl ⟨reply, s.usingLocal, by simp⟩
  | error exc =>
      by_cases hF : needsLocalFallback exc = true
      · cases hL : localModel (s.history ++ [Message.mk Role.user u]) u with
        | ok reply => exact Or.inl ⟨reply, true, by simp [hF, hL]⟩
        | error e2 => exact Or.inr ⟨e2, true, by simp [hF, hL]⟩
      · exact Or.inr ⟨exc, s.usingLocal, by simp [hF]⟩

/-- Claim C2: a successful `respond` call grows the history by exactly 2 (the
user message then the assistant message); a failing call grows it by exactly 1
(the user message is retained, no assistant message is appended). -/
theorem c2_history_growth (primary localModel : Responder) (s : AgentState) (u : String) :
    (∀ r, (respond primary localModel s u).2 = Except.ok r →
      (respond primary localModel s u).1.history.length = s.history.length + 2) ∧
    (∀ e, (respond primary localModel s u).2 = Except.error e →
      (respond primary localModel s u).1.history.length = s.history.length + 1) := by
  rcases respond_shape primary localModel s u with ⟨reply, b, hEq⟩ | ⟨e0, b, hEq⟩
  · constructor
    · intro r _; rw [hEq]; simp
    · intro e he; rw [hEq] at he; cases he
  · constructor
    · intro r hr; rw [hEq] at hr; cases hr
    · intro e _; rw [hEq]; simp

/-- Claim C2 witness: the theorem applied to a responder that succeeds and one
that fails, at the empty starting history. -/
theorem c2_witness :
    (respond (fun _ _ => Except.ok "quack") (fun _ _ => Except.ok "quack")
        (AgentState.mk [] false) "hi").2 = Except.ok (strTrim "quack") ∧
    (respond (fun _ _ => Except.ok "quack") (fun _ _ => Except.ok "quack")
        (AgentState.mk [] false) "hi").1.history.length = ([] : List Message).length + 2 :=
  ⟨rfl,
   (c2_history_growth (fun _ _ => Except.ok "quack") (fun _ _ => Except.ok "quack")
      (AgentState.mk [] false) "hi").1 (strTrim "quack") rfl⟩

/-- A chain invocation that succeeds with a reply carrying surrounding
whitespace. -/
def rawOkResponder : Responder :=
  fun _ _ => Except.ok "  Quack!  "

/-- Claim C8 counterexample: with a chain reply of `"  Quack!  "` the call
succeeds and returns the trimmed `"Quack!"`, but the assistant message
appended to the history carries the raw untrimmed reply, which differs from
the returned trimmed reply — so the appended message does not carry the
trimmed text, contradicting the claim as stated. -/
theorem c8_counterexample :
    (respond rawOkResponder rawOkResponder (AgentState.mk [] false) "hello").2
      = Except.ok "Quack!" ∧
    (respond rawOkResponder rawOkResponder (AgentState.mk [] false) "hello").1.history
      = [Message.mk Role.user "hello", Message.mk Role.assistant "  Quack!  "] ∧
    ("  Quack!  " : String) ≠ "Quack!" := by
  refine ⟨?_, by simp [respond, rawOkResponder], by decide⟩
  show Except.ok (strTrim "  Quack!  ") = Except.ok "Quack!"
  exact congrArg Except.ok (by decide)

/-- Claim C8 as amended: on a successful call the assistant message appended
to the history carries the raw reply exactly as the chain produced it, while
the value returned by `respond` is that reply with surrounding whitespace
stripped. -/
theorem c8_trim_amended (primary localModel : Responder) (s : AgentState) (u raw : String)
    (hs : s.usingLocal = false)
    (hp : primary (s.history ++ [Message.mk Role.user u]) u = Except.ok raw) :
    respond primary localModel s u =
      (AgentState.mk (s.history ++ [Message.mk Role.user u, Message.mk Role.assistant raw])
        false,
       Except.ok (strTrim raw)) := by
  simp only [respond, hs]
  simp [hp]

/-- Claim C8 witness: the amended theorem applied to the whitespace-carrying
responder. -/
theorem c8_witness :
    (AgentState.mk ([] : List Message) false).usingLocal = false ∧
    rawOkResponder ([] ++ [Message.mk Role.user "hi"]) "hi" = Except.ok "  Quack!  " ∧
    respond rawOkResponder rawOkResponder (AgentState.mk [] false) "hi" =
      (AgentState.mk [Message.mk Role.user "hi", Message.mk Role.assistant "  Quack!  "] false,
       Except.ok (strTrim "  Quack!  ")) :=
  ⟨rfl, rfl, c8_trim_amended rawOkResponder rawOkResponder (AgentState.mk [] false) "hi"
    "  Quack!  " rfl rfl⟩

/-- Claim C3: when the configured chain raises an `AttributeError` whose
message mentions `model_dump`, the agent switches to the local responder and
retries the same call exactly once, returning the (trimmed) local reply; a
failure of the retried call propagates with no further retry, and any
exception not of that shape propagates without switching. -/
theorem c3_model_dump_fallback (primary localModel : Responder) (s : AgentState) (u : String)
    (e : PyError) (hs : s.usingLocal = false)
    (hp : primary (s.history ++ [Message.mk Role.user u]) u = Except.error e) :
    (needsLocalFallback e = true →
      (∀ r, localModel (s.history ++ [Message.mk Role.user u]) u = Except.ok r →
        respond primary localModel s u =
          (AgentState.mk (s.history ++ [Message.mk Role.user u, Message.mk Role.assistant r])
            true,
           Except.ok (strTrim r))) ∧
      (∀ e2, localModel (s.history ++ [Message.mk Role.user u]) u = Except.error e2 →
        respond primary localModel s u =
          (AgentState.mk (s.history ++ [Message.mk Role.user u]) true, Except.error e2))) ∧
    (needsLocalFallback e = false →
      respond primary localModel s u =
        (AgentState.mk (s.history ++ [Message.mk Role.user u]) false, Except.error e)) := by
  constructor
  · intro hF
    constructor
    · intro r hL
      simp only [respond, hs]
      simp [hp, hF, hL]
    · intro e2 hL
      simp only [respond, hs]
      simp [hp, hF, hL]
  · intro hF
    simp only [respond, hs]
    simp [hp, hF]

/-- A chain invocation that always raises the incompatible-response-shape
`AttributeError` mentioning `model_dump`. -/
def modelDumpFailingResponder : Responder :=
  fun _ _ => Except.error (PyError.mk true "object has no attribute model_dump")

/-- A chain invocation that always succeeds with the reply `"quack"`. -/
def quackResponder : Responder :=
  fun _ _ => Except.ok "quack"

/-- Claim C3 witness: the theorem applied to a `model_dump`-failing primary
responder and a succeeding local responder. -/
theorem c3_witness :
    needsLocalFallback (PyError.mk true "object has no attribute model_dump") = true ∧
    respond modelDumpFailingResponder quackResponder (AgentState.mk [] false) "hi" =
      (AgentState.mk [Message.mk Role.user "hi", Message.mk Role.assistant "quack"] true,
       Except.ok (strTrim "quack")) :=
  ⟨by decide,
   ((c3_model_dump_fallback modelDumpFailingResponder quackResponder (AgentState.mk [] false)
      "hi" (PyError.mk true "object has no attribute model_dump") rfl rfl).1
      (by decide)).1 "quack" rfl⟩

/-- Claim C1: while a dispatch is in flight (`_is_generating` true) a new
request is a complete no-op — no worker is started and the bubble state is
unchanged; `_cleanup_worker` clears the flag, after which the next request is
accepted: it sets the flag, shows the preview, and starts exactly one worker
on the action's prompt. -/
theorem c1_single_flight_dispatch (s : OverlayState) (action nextAction : String)
    (h : s.isGenerating = true) :
    requestDuckReply action s = s ∧
    (cleanupWorker s).isGenerating = false ∧
    requestDuckReply nextAction (cleanupWorker s) =
      { s with
        isGenerating := true
        bubbleText := actionPreview nextAction
        bubbleVisible := true
        bubbleAutoHide := false
        startedWorkers := s.startedWorkers ++ [buildActionPrompt nextAction] } := by
  refine ⟨?_, rfl, ?_⟩
  · simp [requestDuckReply, h]
  · simp [requestDuckReply, cleanupWorker]

/-- Claim C1 witness: the theorem applied to an in-flight overlay state. -/
theorem c1_witness :
    (OverlayState.mk true "Summoning cosmic quacks..." true false
      [buildActionPrompt "click"]).isGenerating = true ∧
    requestDuckReply "chat"
        (OverlayState.mk true "Summoning cosmic quacks..." true false
          [buildActionPrompt "click"]) =
      OverlayState.mk true "Summoning cosmic quacks..." true false
        [buildActionPrompt "click"] :=
  ⟨rfl,
   (c1_single_flight_dispatch
      (OverlayState.mk true "Summoning cosmic quacks..." true false
        [buildActionPrompt "click"]) "chat" "joke" rfl).1⟩

/-- Single animation tick, fully characterised: the x position advances by
`direction * speed` clamped to `[minX, maxX]`; the speed is unchanged; the
direction stays in `{1, -1}` and the position stays on screen; the direction
changes exactly when the sprite lands on the edge it was walking towards; and
a tick that does not flip advances the position by exactly `direction *
speed`. -/
lemma animateStep_spec (minX maxX : Int) (s : SpriteState)
    (hdir : s.direction = 1 ∨ s.direction = -1) (hspeed : 0 < s.speed)
    (hlo : minX ≤ s.x) (hhi : s.x ≤ maxX) (hlt : minX < maxX) :
    (animateStep minX maxX s).x = max minX (min maxX (s.x + s.direction * s.speed)) ∧
    (animateStep minX maxX s).speed = s.speed ∧
    ((animateStep minX maxX s).direction = 1 ∨ (animateStep minX maxX s).direction = -1) ∧
    minX ≤ (animateStep minX maxX s).x ∧
    (animateStep minX maxX s).x ≤ maxX ∧
    ((animateStep minX maxX s).direction ≠ s.direction ↔
      (s.direction = -1 ∧ (animateStep minX maxX s).x = minX) ∨
      (s.direction = 1 ∧ (animateStep minX maxX s).x = maxX)) ∧
    ((animateStep minX maxX s).direction = s.direction →
      (animateStep minX maxX s).x = s.x + s.direction * s.speed) := by
  rcases hdir with h1 | h1 <;> simp only [animateStep, h1, Int.max_def, Int.min_def] <;>
    split_ifs <;> dsimp only <;> simp <;> omega

/-- While no flip occurs, the walking sprite's position advances linearly:
after `n` ticks none of which changed the direction, the x position is the
start position plus `n * direction * speed` — hence monotonic between two
consecutive flips. -/
lemma animateIter_no_flip (minX maxX : Int) (n : Nat) :
    ∀ (s : SpriteState), (s.direction = 1 ∨ s.direction = -1) → 0 < s.speed →
      minX ≤ s.x → s.x ≤ maxX → minX < maxX →
      (∀ k, k < n → (animateIter minX maxX (k + 1) s).direction = s.direction) →
      (animateIter minX maxX n s).x = s.x + n * (s.direction * s.speed) := by
  induction n with
  | zero => intro s _ _ _ _ _ _; simp [animateIter]
  | succ n ih =>
      intro s hdir hsp hlo hhi hlt hnf
      have hspec := animateStep_spec minX maxX s hdir hsp hlo hhi hlt
      have hd0 : (animateStep minX maxX s).direction = s.direction := by
        have h := hnf 0 (Nat.succ_pos n)
        simpa [animateIter] using h
      have hx0 : (animateStep minX maxX s).x = s.x + s.direction * s.speed :=
        hspec.2.2.2.2.2.2 hd0
      have hdir' : (animateStep minX maxX s).direction = 1 ∨
          (animateStep minX maxX s).direction = -1 := hspec.2.2.1
      have hsp' : 0 < (animateStep minX maxX s).speed := by rw [hspec.2.1]; exact hsp
      have hnf' : ∀ k, k < n →
          (animateIter minX maxX (k + 1) (animateStep minX maxX s)).direction =
            (animateStep minX maxX s).direction := by
        intro k hk
        have h := hnf (k + 1) (by omega)
        rw [hd0]
        simpa [animateIter] using h
      have hrec := ih (animateStep minX maxX s) hdir' hsp' hspec.2.2.2.1 hspec.2.2.2.2.1 hlt hnf'
      have hstep : animateIter minX maxX (n + 1) s =
          animateIter minX maxX n (animateStep minX maxX s) := rfl
      rw [hstep, hrec, hx0, hd0, hspec.2.1]
      push_cast
      ring

/-- Claim C5: on each tick while walking on screen, the x position advances by
`direction * speed` clamped to the available screen span; the direction
changes exactly when the sprite lands on the edge it was walking towards and
nowhere else; a tick without a flip moves by exactly `direction * speed`, and
over any run of ticks without a flip the position follows the linear (hence
monotonic) trajectory `x + n * direction * speed`. -/
theorem c5_walk_animation (minX maxX : Int) (s : SpriteState)
    (hdir : s.direction = 1 ∨ s.direction = -1) (hspeed : 0 < s.speed)
    (hlo : minX ≤ s.x) (hhi : s.x ≤ maxX) (hlt : minX < maxX) :
    (animateStep minX maxX s).x = max minX (min maxX (s.x + s.direction * s.speed)) ∧
    ((animateStep minX maxX s).direction ≠ s.direction ↔
      (s.direction = -1 ∧ (animateStep minX maxX s).x = minX) ∨
      (s.direction = 1 ∧ (animateStep minX maxX s).x = maxX)) ∧
    ((animateStep minX maxX s).direction = s.direction →
      (animateStep minX maxX s).x = s.x + s.direction * s.speed) ∧
    (∀ n : Nat, (∀ k, k < n → (animateIter minX maxX (k + 1) s).direction = s.direction) →
      (animateIter minX maxX n s).x = s.x + n * (s.direction * s.speed)) := by
  have h := animateStep_spec minX maxX s hdir hspeed hlo hhi hlt
  exact ⟨h.1, h.2.2.2.2.2.1, h.2.2.2.2.2.2,
    fun n hn => animateIter_no_flip minX maxX n s hdir hspeed hlo hhi hlt hn⟩

/-- Claim C5 witness: the theorem applied to a sprite in mid-screen walking
right at the source's fixed speed of 3 pixels per tick. -/
theorem c5_witness :
    ((1 : Int) = 1 ∨ (1 : Int) = -1) ∧ (0 : Int) < 3 ∧ (0 : Int) ≤ 100 ∧
      (100 : Int) ≤ 500 ∧ (0 : Int) < 500 ∧
    (animateStep 0 500 (SpriteState.mk 100 1 3)).x = max 0 (min 500 (100 + 1 * 3)) :=
  ⟨Or.inl rfl, by decide, by decide, by decide, by decide,
   (c5_walk_animation 0 500 (SpriteState.mk 100 1 3) (Or.inl rfl) (by decide) (by decide)
      (by decide) (by decide)).1⟩
